import Mathlib

/-!
# kwm: startup, configuration reload, shutdown and the event-tap callback

A shallow embedding of `kwm.cpp`.  The process-wide globals of the file
(`KWMSettings`, `KWMHotkeys`, `KWMPath`, `KWMMach`, the two borders) are the
fields of one explicit state record `kwm_state`, which also carries what the
process has written to its output streams and the calls it has made into
collaborators that live outside this file.  A function that may call `exit`
returns an `outcome`.
-/

set_option autoImplicit false

namespace Kwm

/-! ## Data model -/

/-- A C `double` that is only stored and compared, never computed with; the
literals `0.5` and `1.618` are the rationals they denote. -/
abbrev double := Rat

/-- Modelled from the spec: `hotkey` is declared in a header outside the sources.
The spec gives a hotkey a modifier mask, a keycode, an action and a passthrough
flag; the file reads the fields `Flags`, `Key` and `Passthrough`. -/
structure hotkey where
  Flags : Nat
  Key : Nat
  Action : String
  Passthrough : Bool
deriving DecidableEq

/-- Modelled from the spec: `mode` is declared in a header outside the sources.
A mode has a name (the file reads `ActiveMode->Name`) and its bindings. -/
structure mode where
  Name : String
  Hotkeys : List hotkey
deriving DecidableEq

/-- The global `KWMHotkeys`.  `Modes` is the `std::map` from a mode name to the mode,
held as the list of its entries, each entry keyed by its `Name`.  `ActiveMode` is a
pointer to an entry of that map: `none` is the null pointer, `some n` points to the
entry registered under `n` and dangles when no such entry is registered. -/
structure kwm_hotkeys where
  Modes : List mode
  ActiveMode : Option String
deriving DecidableEq

/-- Modelled from the spec: `window_rule` is declared in a header outside the
sources; a rule pairs an application predicate with a placement. -/
structure window_rule where
  AppPredicate : String
  Placement : String
deriving DecidableEq

/-- Modelled from the spec: the enumeration is declared in a header outside the
sources; the file names `SPLIT_OPTIMAL`, every other enumerator is `other`. -/
inductive split_type where
  | SPLIT_OPTIMAL
  | other (Code : Nat)
deriving DecidableEq

/-- Modelled from the spec: the enumeration is declared in a header outside the
sources; the file names `SpaceModeBSP`, every other enumerator is `other`. -/
inductive space_tiling_option where
  | SpaceModeBSP
  | other (Code : Nat)
deriving DecidableEq

/-- Modelled from the spec: the enumeration is declared in a header outside the
sources; the file names `FocusModeAutoraise`, every other enumerator is `other`. -/
inductive focus_option where
  | FocusModeAutoraise
  | other (Code : Nat)
deriving DecidableEq

/-- Modelled from the spec: the enumeration is declared in a header outside the
sources; the file names `CycleModeScreen`, every other enumerator is `other`. -/
inductive cycle_focus_option where
  | CycleModeScreen
  | other (Code : Nat)
deriving DecidableEq

/-- Modelled from the spec: `container_offset` is declared in a header outside the
sources and the file only stores the value `CreateDefaultScreenOffset()` returns,
so the value is carried as an uninterpreted token. -/
structure container_offset where
  Token : Nat
deriving DecidableEq

/-- Modelled from the spec: `space_settings` is declared in a header outside the
sources; a per-space or per-display override carries a layout kind. -/
structure space_settings where
  Mode : space_tiling_option
deriving DecidableEq

/-- The global `KWMSettings`.  `Flags` is the bit mask `HasFlags` and `AddFlags` work
on; `SpaceSettings` and `DisplaySettings` are maps keyed by an unsigned identifier,
held as the list of their entries. -/
structure kwm_settings where
  SplitRatio : double
  SplitMode : split_type
  DefaultOffset : container_offset
  OptimalRatio : double
  Flags : Nat
  Space : space_tiling_option
  Focus : focus_option
  Cycle : cycle_focus_option
  WindowRules : List window_rule
  SpaceSettings : List (Nat × space_settings)
  DisplaySettings : List (Nat × space_settings)
deriving DecidableEq

/-- The global `KWMPath`. -/
structure kwm_path where
  EnvHome : String
  Home : String
  Include : String
  Layouts : String
  Config : String
  Init : String
  FilePath : String
deriving DecidableEq

/-- The global `KWMMach`: `EventTap` says whether the tap port is non-null. -/
structure kwm_mach where
  EventTap : Bool
  EventMask : Nat
  DisableEventTapInternal : Bool
deriving DecidableEq

structure kwm_border where
  Radius : Int
deriving DecidableEq

/-- One display of the circular display list `AXLibInit` builds. -/
structure ax_display where
  ID : Nat
  Space : Nat
  PrevSpace : Nat
deriving DecidableEq

/-- The event a `CGEventRef` refers to: an identity and the two fields
`CreateHotkeyFromCGEvent` reads. -/
structure CGEvent where
  Id : Nat
  Flags : Nat
  Key : Nat
deriving DecidableEq

inductive CGEventType where
  | kCGEventTapDisabledByTimeout
  | kCGEventTapDisabledByUserInput
  | kCGEventKeyDown
  | kCGEventMouseMoved
  | other (Code : Nat)
deriving DecidableEq

inductive ax_event_type where
  | AXEvent_HotkeyPressed
  | AXEvent_MouseMoved
deriving DecidableEq

inductive border_id where
  | FocusedBorder
  | MarkedBorder
deriving DecidableEq

/-- A call into a collaborator defined outside the file, recorded in the order made.
`MutationLockAcquire` is the acquisition of the mutation lock of the specification;
no statement of the file makes it. -/
inductive call where
  | MutationLockAcquire
  | CGEventTapEnable
  | AXLibConstructEvent (EventType : ax_event_type) (Context : Option hotkey) (Intrinsic : Bool)
  | KwmStartDaemon
  | pthread_create_Daemon
  | signal (Signum : Nat)
  | ShowAllScratchpadWindows
  | CloseBorder (Border : border_id)
  | KwmExecuteSystemCommand (Command : String)
  | NSApplicationLoad
  | AXLibInit
  | AXLibStartEventLoop
  | AXLibGetFocusedApplication
  | CreateWindowNodeTree
  | CGEventTapCreate
  | CFRunLoopAddSource
  | CFRunLoopRun
deriving DecidableEq

/-- The globals of the file, the two output streams and the calls made so far. -/
structure kwm_state where
  KWMSettings : kwm_settings
  KWMHotkeys : kwm_hotkeys
  KWMPath : kwm_path
  KWMMach : kwm_mach
  FocusedBorder : kwm_border
  MarkedBorder : kwm_border
  Displays : List ax_display
  Stdout : List String
  Stderr : List String
  Calls : List call
deriving DecidableEq

/-- What a function that may call `exit` does: it returns to its caller in state `K`,
or the process has exited with `Status` in state `K`. -/
inductive outcome where
  | returned (K : kwm_state)
  | exited (Status : Int) (K : kwm_state)
deriving DecidableEq

/-! ## Settings flags -/

/-- Modelled from the spec: the enumerators of the settings flags are declared in a
header outside the sources; each is taken as one bit of the mask. -/
def Settings_MouseFollowsFocus : Nat := 1 <<< 0

/-- Modelled from the spec: see `Settings_MouseFollowsFocus`. -/
def Settings_BuiltinHotkeys : Nat := 1 <<< 1

/-- Modelled from the spec: see `Settings_MouseFollowsFocus`. -/
def Settings_StandbyOnFloat : Nat := 1 <<< 2

/-- Modelled from the spec: see `Settings_MouseFollowsFocus`. -/
def Settings_CenterOnFloat : Nat := 1 <<< 3

/-- Modelled from the spec: see `Settings_MouseFollowsFocus`. -/
def Settings_LockToContainer : Nat := 1 <<< 4

/-- Modelled from the spec: `HasFlags` is defined in a header outside the sources;
a flag is enabled when one of its bits is set in the mask. -/
def HasFlags (Settings : kwm_settings) (Flag : Nat) : Bool :=
  (Settings.Flags &&& Flag) != 0

/-- Modelled from the spec: `AddFlags` is defined in a header outside the sources;
it sets the bits of the flag in the mask. -/
def AddFlags (Settings : kwm_settings) (Flag : Nat) : kwm_settings :=
  { Settings with Flags := Settings.Flags ||| Flag }

/-! ## Hotkey modes -/

/-- The entry of the mode map registered under `Name`. -/
def FindMode (Modes : List mode) (Name : String) : Option mode :=
  Modes.find? (fun M => M.Name == Name)

/-- Modelled from the spec: `CreateBindingMode` is defined outside the sources; a
newly registered mode has its name and no bindings. -/
def CreateBindingMode (Name : String) : mode :=
  { Name := Name, Hotkeys := [] }

/-- Modelled from the spec: `GetBindingMode` is defined outside the sources; it is
get-or-create on the mode map and returns a pointer to the entry registered under
the name, together with the map. -/
def GetBindingMode (Name : String) (H : kwm_hotkeys) : String × kwm_hotkeys :=
  match FindMode H.Modes Name with
  | some _ => (Name, H)
  | none => (Name, { H with Modes := H.Modes ++ [CreateBindingMode Name] })

/-- Dereferencing `KWMHotkeys.ActiveMode`: the entry pointed to, or `none` when the
pointer is null or dangling. -/
def ActiveModeDeref (H : kwm_hotkeys) : Option mode :=
  match H.ActiveMode with
  | none => none
  | some Name => FindMode H.Modes Name

/-- The bindings registered in the mode called `Name`; none when no such mode is
registered. -/
def Bindings (H : kwm_hotkeys) (Name : String) : List hotkey :=
  match FindMode H.Modes Name with
  | none => []
  | some M => M.Hotkeys

/-- Modelled from the spec: `HotkeyExists` is defined outside the sources; it looks
up the exact pair of modifier mask and keycode within the bindings of the mode
called `Mode` and yields the bound hotkey, or no match. -/
def HotkeyExists (H : kwm_hotkeys) (Flags Key : Nat) (Mode : String) : Option hotkey :=
  (Bindings H Mode).find? (fun B => B.Flags == Flags && B.Key == Key)

/-- Modelled from the spec: `CreateHotkeyFromCGEvent` is defined outside the sources;
it fills the modifier mask and the keycode of the event into the hotkey. -/
def CreateHotkeyFromCGEvent (Event : CGEvent) (Eventkey : hotkey) : hotkey :=
  { Eventkey with Flags := Event.Flags, Key := Event.Key }

/-! ## The event-tap callback -/

/-- What `CGEventCallback` hands back: the returned `CGEventRef` (`none` is `NULL`,
the event is suppressed) and the state after the call. -/
structure callback_result where
  Return : Option CGEvent
  K : kwm_state
deriving DecidableEq

/-- Record a call into a collaborator. -/
def Call (C : call) (K : kwm_state) : kwm_state :=
  { K with Calls := K.Calls ++ [C] }

/-- The function `CGEventCallback`; `EventType` is its parameter `Type`.  The result is
`none` when the call dereferences a null or dangling `KWMHotkeys.ActiveMode`, which
the language leaves undefined.  `new hotkey` either yields an object or throws, so
the test `if(Hotkey)` holds; the `DEBUG` lines only log. -/
def CGEventCallback (K : kwm_state) (EventType : CGEventType) (Event : CGEvent) :
    Option callback_result :=
  match EventType with
  | .kCGEventTapDisabledByTimeout | .kCGEventTapDisabledByUserInput =>
    if !K.KWMMach.DisableEventTapInternal then
      some { Return := some Event, K := Call .CGEventTapEnable K }
    else
      some { Return := some Event, K := K }
  | .kCGEventKeyDown =>
    if HasFlags K.KWMSettings Settings_BuiltinHotkeys then
      let Eventkey := CreateHotkeyFromCGEvent Event
        { Flags := 0, Key := 0, Action := "", Passthrough := false }
      match ActiveModeDeref K.KWMHotkeys with
      | none => none
      | some Active =>
        match HotkeyExists K.KWMHotkeys Eventkey.Flags Eventkey.Key Active.Name with
        | some Hotkey =>
          let K1 := Call (.AXLibConstructEvent .AXEvent_HotkeyPressed (some Hotkey) false) K
          if !Hotkey.Passthrough then
            some { Return := none, K := K1 }
          else
            some { Return := some Event, K := K1 }
        | none => some { Return := some Event, K := K }
    else
      some { Return := some Event, K := K }
  | .kCGEventMouseMoved =>
    if K.KWMSettings.Focus = .FocusModeAutoraise then
      some { Return := some Event,
             K := Call (.AXLibConstructEvent .AXEvent_MouseMoved none false) K }
    else
      some { Return := some Event, K := K }
  | .other _ => some { Return := some Event, K := K }

/-! ## Configuration directives -/

/-- Modelled from the spec: the name and value of a `SetOption` directive, one
constructor for each setting of `KWMSettings` a configuration can set. -/
inductive option_value where
  | SplitRatio (Value : double)
  | SplitMode (Value : split_type)
  | DefaultOffset (Value : container_offset)
  | OptimalRatio (Value : double)
  | Flag (Flag : Nat) (Enabled : Bool)
  | Space (Value : space_tiling_option)
  | Focus (Value : focus_option)
  | Cycle (Value : cycle_focus_option)
  | SpaceSettings (Id : Nat) (Value : space_settings)
  | DisplaySettings (Id : Nat) (Value : space_settings)
deriving DecidableEq

/-- Modelled from the spec: the structured directives a configuration source
produces. -/
inductive directive where
  | SetOption (Value : option_value)
  | DefineMode (Name : String)
  | BindHotkey (Mode : String) (ModifierMask Keycode : Nat) (Action : String)
      (Passthrough : Bool)
  | SetWindowRule (AppPredicate Placement : String)
deriving DecidableEq

/-- Assign `Value` to the key `Id` of a map held as the list of its entries. -/
def MapAssign (Map : List (Nat × space_settings)) (Id : Nat) (Value : space_settings) :
    List (Nat × space_settings) :=
  Map.filter (fun E => E.1 != Id) ++ [(Id, Value)]

/-- Modelled from the spec: the effect of `SetOption` on `KWMSettings`. -/
def SetOption (Value : option_value) (S : kwm_settings) : kwm_settings :=
  match Value with
  | .SplitRatio V => { S with SplitRatio := V }
  | .SplitMode V => { S with SplitMode := V }
  | .DefaultOffset V => { S with DefaultOffset := V }
  | .OptimalRatio V => { S with OptimalRatio := V }
  | .Flag F true => AddFlags S F
  | .Flag F false => { S with Flags := S.Flags ^^^ (S.Flags &&& F) }
  | .Space V => { S with Space := V }
  | .Focus V => { S with Focus := V }
  | .Cycle V => { S with Cycle := V }
  | .SpaceSettings Id V => { S with SpaceSettings := MapAssign S.SpaceSettings Id V }
  | .DisplaySettings Id V => { S with DisplaySettings := MapAssign S.DisplaySettings Id V }

/-- Modelled from the spec: `BindHotkey` binds the pair of modifier mask and keycode in
the mode (registering the mode when it is new); keys are unique within a mode, so
an earlier binding of the same pair is replaced. -/
def BindHotkey (Mode : String) (Binding : hotkey) (H : kwm_hotkeys) : kwm_hotkeys :=
  let H1 := (GetBindingMode Mode H).2
  { H1 with Modes := H1.Modes.map (fun M =>
      if M.Name == Mode then
        { M with Hotkeys :=
            M.Hotkeys.filter (fun B => !(B.Flags == Binding.Flags && B.Key == Binding.Key))
              ++ [Binding] }
      else M) }

/-- Modelled from the spec: the effect of one directive on the Settings and hotkey
registries. -/
def ApplyDirective (R : kwm_settings × kwm_hotkeys) (D : directive) :
    kwm_settings × kwm_hotkeys :=
  match D with
  | .SetOption V => (SetOption V R.1, R.2)
  | .DefineMode Name => (R.1, (GetBindingMode Name R.2).2)
  | .BindHotkey Mode ModifierMask Keycode Action Passthrough =>
    (R.1, BindHotkey Mode
      { Flags := ModifierMask, Key := Keycode, Action := Action, Passthrough := Passthrough }
      R.2)
  | .SetWindowRule AppPredicate Placement =>
    ({ R.1 with WindowRules :=
        R.1.WindowRules ++ [{ AppPredicate := AppPredicate, Placement := Placement }] }, R.2)

/-! ## The environment of the process -/

/-- One return of `getopt_long`: the option character and, for an option that takes
an argument, `optarg`. -/
structure getopt_result where
  Opt : Char
  optarg : String
deriving DecidableEq

/-- What the collaborators outside the file answer during one run. -/
structure kwm_env where
  /-- Whether the build defines `DEBUG_BUILD`. -/
  DEBUG_BUILD : Bool
  /-- The successive returns of `getopt_long` before it returns `-1`. -/
  getopt_long : List getopt_result
  AXIsProcessTrustedWithOptions : Bool
  KwmStartDaemon : Bool
  CreateDefaultScreenOffset : container_offset
  /-- The value of `std::getenv("HOME")`, `none` when it is null. -/
  HOME : Option String
  /-- The path `proc_pidpath` writes, `none` when it does not return a positive value. -/
  proc_pidpath : Option String
  /-- Whether `stat` returns `0` for the path. -/
  stat : String → Bool
  /-- The directives of the configuration source at the path, `none` when parsing it
  fails. -/
  ConfigSource : String → Option (List directive)
  AXLibDisplayHasSeparateSpaces : Bool
  /-- The displays `AXLibInit` finds, the main display first. -/
  AXLibDisplays : List ax_display
  AXLibGetActiveSpace : ax_display → Nat
  CGSIsSecureEventInputSet : Bool
  /-- Whether `CGEventTapCreate` returns a non-null port. -/
  CGEventTapCreate : Bool
  CGEventTapIsEnabled : Bool

/-- Modelled from the spec: `KwmParseConfig` is defined outside the sources.  It reads
the configuration source at `Path` and applies its directives in order; when
parsing fails it applies no directive. -/
def KwmParseConfig (Env : kwm_env) (Path : String) (K : kwm_state) : kwm_state :=
  match Env.ConfigSource Path with
  | none => K
  | some Directives =>
    let R := Directives.foldl ApplyDirective (K.KWMSettings, K.KWMHotkeys)
    { K with KWMSettings := R.1, KWMHotkeys := R.2 }

/-! ## Startup, reload and shutdown -/

def KwmCurrentVersion : String := "Kwm Version 3.0.7"

def SIGINT : Nat := 2
def SIGTRAP : Nat := 5
def SIGABRT : Nat := 6
def SIGKILL : Nat := 9
def SIGSEGV : Nat := 11
def SIGTERM : Nat := 15

/-- The value of the CoreGraphics constant `kCGEventKeyDown`. -/
def kCGEventKeyDown : Nat := 10

/-- The value of the CoreGraphics constant `kCGEventMouseMoved`. -/
def kCGEventMouseMoved : Nat := 5

/-- Write a line to the standard output. -/
def Print (Line : String) (K : kwm_state) : kwm_state :=
  { K with Stdout := K.Stdout ++ [Line] }

def CheckPrivileges (Env : kwm_env) : Bool :=
  Env.AXIsProcessTrustedWithOptions

/-- The position `std::string::find_last_of` returns for the characters `Chars`,
`none` for `npos`. -/
def find_last_of (S : List Char) (Chars : List Char) : Option Nat :=
  (List.range S.length).reverse.find? (fun I => Chars.contains (S.getD I ' '))

/-- The string `S.substr(0, Count)`, `none` being `npos`. -/
def substr0 (S : List Char) (Count : Option Nat) : List Char :=
  match Count with
  | none => S
  | some N => S.take N

def GetKwmFilePath (Env : kwm_env) (K : kwm_state) : Bool × kwm_state :=
  match Env.proc_pidpath with
  | some PathBuf =>
    let Split := find_last_of PathBuf.toList ['/', Char.ofNat 92]
    (true, { K with KWMPath :=
      { K.KWMPath with FilePath := String.mk (substr0 PathBuf.toList Split) } })
  | none => (false, K)

def KwmClearSettings (K : kwm_state) : kwm_state :=
  let H := { K.KWMHotkeys with Modes := [] }
  let S := { K.KWMSettings with WindowRules := [], SpaceSettings := [], DisplaySettings := [] }
  let R := GetBindingMode "default" H
  { K with KWMSettings := S, KWMHotkeys := { R.2 with ActiveMode := some R.1 } }

def KwmExecuteInitScript (Env : kwm_env) (K : kwm_state) : kwm_state :=
  let K1 :=
    if K.KWMPath.Init = "" then
      { K with KWMPath := { K.KWMPath with Init := K.KWMPath.Home ++ "/init" } }
    else K
  if Env.stat K1.KWMPath.Init then Call (.KwmExecuteSystemCommand K1.KWMPath.Init) K1
  else K1

/-- The library function `exit`: the process ends, and the status its parent sees is
the low eight bits of the argument. -/
def exit (Status : Int) (K : kwm_state) : outcome :=
  .exited (Status % 256) K

/-- Modelled from the spec: `ShowAllScratchpadWindows` is defined outside the sources.
Shutdown cleanup is non-blocking: the call restores the hidden windows, acquires no
lock and returns. -/
def ShowAllScratchpadWindows (K : kwm_state) : kwm_state :=
  Call .ShowAllScratchpadWindows K

/-- Modelled from the spec: `CloseBorder` is defined outside the sources.  Shutdown
cleanup is non-blocking: the call closes the overlay, acquires no lock and
returns. -/
def CloseBorder (Border : border_id) (K : kwm_state) : kwm_state :=
  Call (.CloseBorder Border) K

def Fatal (Err : String) (K : kwm_state) : outcome :=
  exit 1 (Print Err K)

/-- The writes `KwmInit` makes to `KWMSettings`. -/
def KwmInitSettings (Env : kwm_env) (S : kwm_settings) : kwm_settings :=
  let S1 := { S with SplitRatio := 1 / 2, SplitMode := .SPLIT_OPTIMAL,
                     DefaultOffset := Env.CreateDefaultScreenOffset,
                     OptimalRatio := 1618 / 1000 }
  let S2 := AddFlags S1
    (Settings_MouseFollowsFocus ||| Settings_BuiltinHotkeys ||| Settings_StandbyOnFloat |||
      Settings_CenterOnFloat ||| Settings_LockToContainer)
  { S2 with Space := .SpaceModeBSP, Focus := .FocusModeAutoraise, Cycle := .CycleModeScreen }

def KwmInit (Env : kwm_env) (K : kwm_state) : outcome :=
  if !CheckPrivileges Env then
    Fatal "Error: Could not access OSX Accessibility!" K
  else
    let K1 := Call .KwmStartDaemon K
    if !Env.KwmStartDaemon then
      Fatal "Error: Could not start daemon!" K1
    else
      let K2 := Call .pthread_create_Daemon K1
      let K3 :=
        if Env.DEBUG_BUILD then Print "Notice: Signal handlers disabled!" K2
        else
          Call (.signal SIGINT) (Call (.signal SIGKILL) (Call (.signal SIGTERM)
            (Call (.signal SIGTRAP) (Call (.signal SIGABRT) (Call (.signal SIGSEGV) K2)))))
      let K4 := { K3 with KWMSettings := KwmInitSettings Env K3.KWMSettings,
                          FocusedBorder := { Radius := -1 },
                          MarkedBorder := { Radius := -1 } }
      match Env.HOME with
      | some HomeP =>
        let P1 := { K4.KWMPath with EnvHome := HomeP, Home := HomeP ++ "/.kwm",
                                    Include := HomeP ++ "/.kwm",
                                    Layouts := HomeP ++ "/.kwm" ++ "/layouts" }
        let P2 := if P1.Config = "" then { P1 with Config := P1.Home ++ "/kwmrc" } else P1
        let R := GetBindingMode "default" K4.KWMHotkeys
        let K5 := { K4 with KWMPath := P2, KWMHotkeys := { R.2 with ActiveMode := some R.1 } }
        .returned (GetKwmFilePath Env K5).2
      | none => Fatal "Error: Failed to get environment variable 'HOME'" K4

def KwmReloadConfig (Env : kwm_env) (K : kwm_state) : kwm_state :=
  let K1 := KwmClearSettings K
  KwmParseConfig Env K1.KWMPath.Config K1

/-- The function `ParseArguments` over the successive returns of `getopt_long`: the
result is `true` for an operation that makes the process exit. -/
def ParseArguments : List getopt_result → kwm_state → Bool × kwm_state
  | [], K => (false, K)
  | R :: Rest, K =>
    if R.Opt = 'v' then (true, Print KwmCurrentVersion K)
    else if R.Opt = 'c' then
      ParseArguments Rest { K with KWMPath := { K.KWMPath with Config := R.optarg } }
    else ParseArguments Rest K

/-- The statements of `main` from `AXLibInit` to the assignment of
`FocusedApplication`: the event loop is started and every display of the display
ring gets its active space, the space it had becoming its previous space. -/
def mainDisplays (Env : kwm_env) (K2 : kwm_state) : kwm_state :=
  let K3 := Call .AXLibStartEventLoop (Call .AXLibInit K2)
  let K4 := { K3 with Displays := Env.AXLibDisplays.map (fun Display =>
    { Display with Space := Env.AXLibGetActiveSpace Display,
                   PrevSpace := Display.Space }) }
  Call .AXLibGetFocusedApplication K4

/-- The statements of `main` from the secure-input notice to the creation of the
event tap. -/
def mainTapCreate (Env : kwm_env) (K9 : kwm_state) : kwm_state :=
  let K10 :=
    if Env.CGSIsSecureEventInputSet then
      { K9 with Stderr := K9.Stderr ++
          ["Notice: Secure Keyboard Entry is enabled, hotkeys will not work!"] }
    else K9
  let K11 := { K10 with KWMMach := { K10.KWMMach with
    EventMask := (1 <<< kCGEventKeyDown) ||| (1 <<< kCGEventMouseMoved) } }
  Call .CGEventTapCreate
    { K11 with KWMMach := { K11.KWMMach with EventTap := Env.CGEventTapCreate } }

/-- The last statements of `main`: unless the event tap is missing or disabled, the run
loop is entered; returning from `main` ends the process with the returned status. -/
def mainRunLoop (Env : kwm_env) (K12 : kwm_state) : outcome :=
  if !K12.KWMMach.EventTap || !Env.CGEventTapIsEnabled then
    Fatal "Error: Could not create event-tap!" K12
  else
    let K13 := Call .CFRunLoopRun (Call .CGEventTapEnable (Call .CFRunLoopAddSource K12))
    .exited 0 K13

/-- The function `main`, with `mainDisplays`, `mainTapCreate` and `mainRunLoop` for three
runs of its statements; returning from `main` ends the process with the returned
status. -/
def main (Env : kwm_env) (K : kwm_state) : outcome :=
  match ParseArguments Env.getopt_long K with
  | (true, K1) => .exited 0 K1
  | (false, K1) =>
    let K2 := Call .NSApplicationLoad K1
    if !Env.AXLibDisplayHasSeparateSpaces then
      Fatal "Error: 'Displays have separate spaces' must be enabled!" K2
    else
      let K5 := mainDisplays Env K2
      match KwmInit Env K5 with
      | .exited Status K6 => .exited Status K6
      | .returned K6 =>
        let K7 := KwmParseConfig Env K6.KWMPath.Config K6
        let K8 := KwmExecuteInitScript Env K7
        let K9 := Call .CreateWindowNodeTree K8
        let K12 := mainTapCreate Env K9
        mainRunLoop Env K12

/-! ## Concrete states and events -/

/-- The modifier mask named `PRIMARY` in the scenario of the specification. -/
def PRIMARY : Nat := 1 <<< 20

/-- The keycode named `LEFT` in the scenario of the specification. -/
def LEFT : Nat := 123

/-- The hotkey of the scenario: `(PRIMARY, LEFT)` bound to `FocusLeft`, not passed
through. -/
def FocusLeft : hotkey :=
  { Flags := PRIMARY, Key := LEFT, Action := "FocusLeft", Passthrough := false }

/-- The mode `default` of the scenario. -/
def DefaultMode : mode := { Name := "default", Hotkeys := [FocusLeft] }

/-- A second mode, binding `(PRIMARY, LEFT)` to another action and `(PRIMARY, 124)`
with passthrough. -/
def ResizeMode : mode :=
  { Name := "resize",
    Hotkeys := [{ Flags := PRIMARY, Key := LEFT, Action := "ShrinkLeft", Passthrough := false },
                { Flags := PRIMARY, Key := 124, Action := "GrowRight", Passthrough := true }] }

/-- Settings as `KwmInit` leaves them, with one window rule and one override for a
space and for a display. -/
def ScenarioSettings : kwm_settings :=
  { SplitRatio := 1 / 2, SplitMode := .SPLIT_OPTIMAL, DefaultOffset := { Token := 0 },
    OptimalRatio := 1618 / 1000, Flags := 31, Space := .SpaceModeBSP,
    Focus := .FocusModeAutoraise, Cycle := .CycleModeScreen,
    WindowRules := [{ AppPredicate := "iTerm2", Placement := "float" }],
    SpaceSettings := [(1, { Mode := .other 1 })],
    DisplaySettings := [(0, { Mode := .SpaceModeBSP })] }

def ScenarioPath : kwm_path :=
  { EnvHome := "/Users/u", Home := "/Users/u/.kwm", Include := "/Users/u/.kwm",
    Layouts := "/Users/u/.kwm/layouts", Config := "/Users/u/.kwm/kwmrc", Init := "",
    FilePath := "/usr/local/bin" }

/-- The state of the scenario: modes `default` and `resize`, `default` active. -/
def ScenarioState : kwm_state :=
  { KWMSettings := ScenarioSettings,
    KWMHotkeys := { Modes := [DefaultMode, ResizeMode], ActiveMode := some "default" },
    KWMPath := ScenarioPath,
    KWMMach := { EventTap := true, EventMask := 1056, DisableEventTapInternal := false },
    FocusedBorder := { Radius := -1 }, MarkedBorder := { Radius := -1 },
    Displays := [], Stdout := [], Stderr := [], Calls := [] }

/-- The scenario with built-in hotkeys disabled and a null active-mode pointer. -/
def DisabledState : kwm_state :=
  { ScenarioState with
    KWMSettings := { ScenarioSettings with Flags := 29 },
    KWMHotkeys := { Modes := [DefaultMode], ActiveMode := none } }

/-- The key-down event of the scenario. -/
def ScenarioEvent : CGEvent := { Id := 7, Flags := PRIMARY, Key := LEFT }

/-! ## The active-mode invariant and the scalar settings -/

/-- A mode called `Name` is registered in the mode map. -/
def Registered (H : kwm_hotkeys) (Name : String) : Prop :=
  (FindMode H.Modes Name).isSome = true

/-- The active-mode invariant: the active mode pointer resolves to a registered mode
and a mode named `default` is registered. -/
def ActiveModeInvariant (H : kwm_hotkeys) : Prop :=
  (ActiveModeDeref H).isSome = true ∧ Registered H "default"

/-- The settings with the three containers `KwmClearSettings` clears emptied: what
remains are the scalar settings. -/
def ScalarSettings (S : kwm_settings) : kwm_settings :=
  { S with WindowRules := [], SpaceSettings := [], DisplaySettings := [] }

/-- The hotkey registry `KwmClearSettings` leaves: the one mode `default`, without
bindings, which is the active mode. -/
def ClearedHotkeys : kwm_hotkeys :=
  { Modes := [CreateBindingMode "default"], ActiveMode := some "default" }

/-- An environment whose configuration source fails to parse. -/
def FailingEnv : kwm_env :=
  { DEBUG_BUILD := false, getopt_long := [], AXIsProcessTrustedWithOptions := true,
    KwmStartDaemon := true, CreateDefaultScreenOffset := { Token := 0 },
    HOME := some "/Users/u", proc_pidpath := some "/usr/local/bin/kwm",
    stat := fun _ => false, ConfigSource := fun _ => none,
    AXLibDisplayHasSeparateSpaces := true,
    AXLibDisplays := [{ ID := 0, Space := 1, PrevSpace := 0 }],
    AXLibGetActiveSpace := fun _ => 2, CGSIsSecureEventInputSet := false,
    CGEventTapCreate := true, CGEventTapIsEnabled := true }

/-- A configuration that defines a mode, binds a hotkey in it and sets a window rule,
and sets no option. -/
def SampleConfig : List directive :=
  [.DefineMode "resize", .BindHotkey "resize" PRIMARY LEFT "ShrinkLeft" false,
   .SetWindowRule "Finder" "float"]

/-- An environment whose configuration source is `SampleConfig`. -/
def SampleEnv : kwm_env :=
  { FailingEnv with ConfigSource := fun _ => some SampleConfig }

/-- The arguments of the `-c`/`--config` options among the returns of `getopt_long`,
in the order given. -/
def ConfigOptions (Results : List getopt_result) : List String :=
  (Results.filter (fun R => R.Opt == 'c')).map (fun R => R.optarg)

/-- The configuration path in effect after `ParseArguments` followed by `KwmInit`;
`none` when `ParseArguments` asks for the process to exit or `KwmInit` exits. -/
def StartupConfig (Env : kwm_env) (K : kwm_state) : Option String :=
  match ParseArguments Env.getopt_long K with
  | (true, _) => none
  | (false, K1) =>
    match KwmInit Env K1 with
    | .returned K2 => some K2.KWMPath.Config
    | .exited _ _ => none

/-- The state at process start used in the instances: every path is empty. -/
def StartState : kwm_state :=
  { ScenarioState with
    KWMHotkeys := { Modes := [], ActiveMode := none },
    KWMPath := { EnvHome := "", Home := "", Include := "", Layouts := "", Config := "",
                 Init := "", FilePath := "" } }

/-- The run `kwm -c ""`: one `-c` option whose argument is the empty string. -/
def EmptyConfigEnv : kwm_env :=
  { FailingEnv with getopt_long := [{ Opt := 'c', optarg := "" }] }

/-- The run `kwm -c a -x --config b`. -/
def TwoConfigEnv : kwm_env :=
  { FailingEnv with getopt_long :=
      [{ Opt := 'c', optarg := "a" }, { Opt := '?', optarg := "" },
       { Opt := 'c', optarg := "b" }] }

/-- The diagnostics `Fatal` is called with. -/
def Diagnostics : List String :=
  ["Error: Could not access OSX Accessibility!",
   "Error: Could not start daemon!",
   "Error: Failed to get environment variable 'HOME'",
   "Error: 'Displays have separate spaces' must be enabled!",
   "Error: Could not create event-tap!"]

/-- A run in which the accessibility check fails. -/
def UntrustedEnv : kwm_env :=
  { FailingEnv with AXIsProcessTrustedWithOptions := false }

/-- The outcome `O` of a run started in `K` is a fatal exit: the process has exited with
status `1`, the last line on the standard output is one of the diagnostics, and
the run loop was not entered during the run. -/
def FatalExit (K : kwm_state) (O : outcome) : Prop :=
  ∃ K1 Err, O = .exited 1 K1 ∧ Err ∈ Diagnostics ∧ K1.Stdout.getLast? = some Err ∧
    (call.CFRunLoopRun ∈ K1.Calls → call.CFRunLoopRun ∈ K.Calls)

/-- The two execution contexts: the worker context, which runs `KwmReloadConfig`, and
the primary context, which runs `CGEventCallback`. -/
inductive context where
  | worker
  | primary
deriving DecidableEq

/-- A run of `KwmReloadConfig` on the worker context during which the primary context
may run the callback: `Pc` counts the statements of `KwmReloadConfig` executed so
far, `K` is the shared state and `Observed` holds what the callback returned, in
order. -/
structure reload_run where
  Pc : Nat
  K : kwm_state
  Observed : List (Option callback_result)

/-- The worker context executes the next statement of `KwmReloadConfig`: first
`KwmClearSettings()`, then `KwmParseConfig(KWMPath.Config)`, then nothing more.
Neither statement is preceded by a lock acquisition. -/
def ReloadStep (Env : kwm_env) (S : reload_run) : reload_run :=
  match S.Pc with
  | 0 => { S with Pc := 1, K := KwmClearSettings S.K }
  | 1 => { S with Pc := 2, K := KwmParseConfig Env S.K.KWMPath.Config S.K }
  | _ => S

/-- The primary context runs `CGEventCallback` on the shared state as it is. -/
def CallbackStep (EventType : CGEventType) (Event : CGEvent) (S : reload_run) : reload_run :=
  match CGEventCallback S.K EventType Event with
  | none => { S with Observed := S.Observed ++ [none] }
  | some R => { S with K := R.K, Observed := S.Observed ++ [some R] }

/-- The run under a schedule: each entry names the context that takes the next step. -/
def Interleave (Env : kwm_env) (EventType : CGEventType) (Event : CGEvent) :
    List context → reload_run → reload_run
  | [], S => S
  | .worker :: Rest, S => Interleave Env EventType Event Rest (ReloadStep Env S)
  | .primary :: Rest, S =>
    Interleave Env EventType Event Rest (CallbackStep EventType Event S)

/-- A configuration that binds `(PRIMARY, LEFT)` in the mode `default` anew. -/
def RebindConfig : List directive :=
  [.BindHotkey "default" PRIMARY LEFT "FocusLeftNew" false]

/-- An environment whose configuration source is `RebindConfig`. -/
def RebindEnv : kwm_env :=
  { FailingEnv with ConfigSource := fun _ => some RebindConfig }

theorem Fatal_exited (Err : String) (K : kwm_state) :
    Fatal Err K = .exited 1 (Print Err K) := rfl


theorem FindMode_some {Modes : List mode} {Name : String} {M : mode}
    (h : FindMode Modes Name = some M) : M.Name = Name ∧ M ∈ Modes := by
  unfold FindMode at h
  refine ⟨?_, List.mem_of_find?_eq_some h⟩
  have := List.find?_some h
  simpa using this

theorem ActiveModeDeref_some {H : kwm_hotkeys} {Active : mode}
    (h : ActiveModeDeref H = some Active) :
    H.ActiveMode = some Active.Name ∧ FindMode H.Modes Active.Name = some Active := by
  unfold ActiveModeDeref at h
  cases hA : H.ActiveMode with
  | none => simp [hA] at h
  | some Name =>
    simp only [hA] at h
    have hn := (FindMode_some h).1
    subst hn
    exact ⟨rfl, h⟩

theorem Bindings_of_FindMode {H : kwm_hotkeys} {Name : String} {M : mode}
    (h : FindMode H.Modes Name = some M) : Bindings H Name = M.Hotkeys := by
  simp [Bindings, h]

theorem HotkeyExists_some {H : kwm_hotkeys} {Flags Key : Nat} {Mode : String} {B : hotkey}
    (h : HotkeyExists H Flags Key Mode = some B) :
    B ∈ Bindings H Mode ∧ B.Flags = Flags ∧ B.Key = Key := by
  unfold HotkeyExists at h
  refine ⟨List.mem_of_find?_eq_some h, ?_⟩
  have := List.find?_some h
  simpa using this

theorem HotkeyExists_none {H : kwm_hotkeys} {Flags Key : Nat} {Mode : String} :
    HotkeyExists H Flags Key Mode = none ↔
      ∀ B ∈ Bindings H Mode, ¬ (B.Flags = Flags ∧ B.Key = Key) := by
  unfold HotkeyExists
  simp [List.find?_eq_none]

theorem Registered_iff {H : kwm_hotkeys} {Name : String} :
    Registered H Name ↔ Name ∈ H.Modes.map (fun M => M.Name) := by
  unfold Registered FindMode
  rw [List.find?_isSome]
  simp

theorem GetBindingMode_fst (Name : String) (H : kwm_hotkeys) :
    (GetBindingMode Name H).1 = Name := by
  unfold GetBindingMode
  cases FindMode H.Modes Name <;> rfl

theorem GetBindingMode_ActiveMode (Name : String) (H : kwm_hotkeys) :
    (GetBindingMode Name H).2.ActiveMode = H.ActiveMode := by
  unfold GetBindingMode
  cases FindMode H.Modes Name <;> rfl

theorem GetBindingMode_registered (Name : String) (H : kwm_hotkeys) :
    Registered (GetBindingMode Name H).2 Name := by
  rw [Registered_iff]
  unfold GetBindingMode
  cases h : FindMode H.Modes Name with
  | none => simp [CreateBindingMode]
  | some M =>
    have := FindMode_some h
    simp only [List.mem_map]
    exact ⟨M, this.2, this.1⟩

theorem GetBindingMode_keeps (Name Other : String) (H : kwm_hotkeys)
    (h : Registered H Other) : Registered (GetBindingMode Name H).2 Other := by
  rw [Registered_iff] at h ⊢
  unfold GetBindingMode
  cases FindMode H.Modes Name with
  | none =>
    simp only [List.map_append, List.mem_append]
    exact Or.inl h
  | some M => exact h

theorem BindHotkey_ActiveMode (Mode : String) (B : hotkey) (H : kwm_hotkeys) :
    (BindHotkey Mode B H).ActiveMode = H.ActiveMode := by
  simp [BindHotkey, GetBindingMode_ActiveMode]

theorem BindHotkey_keeps (Mode Other : String) (B : hotkey) (H : kwm_hotkeys)
    (h : Registered H Other) : Registered (BindHotkey Mode B H) Other := by
  have h1 := GetBindingMode_keeps Mode Other H h
  rw [Registered_iff] at h1 ⊢
  have hnames : (BindHotkey Mode B H).Modes.map (fun M => M.Name)
      = (GetBindingMode Mode H).2.Modes.map (fun M => M.Name) := by
    simp only [BindHotkey, List.map_map]
    apply List.map_congr_left
    intro M _
    by_cases hM : M.Name = Mode <;> simp [hM]
  rw [hnames]
  exact h1

theorem ApplyDirective_ActiveMode (R : kwm_settings × kwm_hotkeys) (D : directive) :
    (ApplyDirective R D).2.ActiveMode = R.2.ActiveMode := by
  cases D <;> simp [ApplyDirective, GetBindingMode_ActiveMode, BindHotkey_ActiveMode]

theorem ApplyDirective_keeps (R : kwm_settings × kwm_hotkeys) (D : directive)
    (Other : String) (h : Registered R.2 Other) : Registered (ApplyDirective R D).2 Other := by
  cases D with
  | SetOption V => exact h
  | DefineMode Name => exact GetBindingMode_keeps Name Other R.2 h
  | BindHotkey Mode ModifierMask Keycode Action Passthrough =>
    exact BindHotkey_keeps Mode Other _ R.2 h
  | SetWindowRule AppPredicate Placement => exact h

theorem foldl_ApplyDirective_invariant (P : kwm_settings × kwm_hotkeys → Prop)
    (Directives : List directive)
    (hstep : ∀ R, ∀ D ∈ Directives, P R → P (ApplyDirective R D))
    (R : kwm_settings × kwm_hotkeys) (h : P R) :
    P (Directives.foldl ApplyDirective R) := by
  induction Directives generalizing R with
  | nil => exact h
  | cons D Rest ih =>
    simp only [List.foldl_cons]
    apply ih
    · intro R1 D1 hD1 hP
      exact hstep R1 D1 (List.mem_cons_of_mem _ hD1) hP
    · exact hstep R D (List.mem_cons_self _ _) h

theorem ActiveModeInvariant_of (H : kwm_hotkeys) (Name : String)
    (ha : H.ActiveMode = some Name) (hr : Registered H Name) (hd : Registered H "default") :
    ActiveModeInvariant H := by
  refine ⟨?_, hd⟩
  unfold ActiveModeDeref
  rw [ha]
  exact hr

theorem KwmClearSettings_KWMHotkeys (K : kwm_state) :
    (KwmClearSettings K).KWMHotkeys = ClearedHotkeys := by
  simp [KwmClearSettings, GetBindingMode, FindMode, ClearedHotkeys]

theorem KwmClearSettings_eq (K : kwm_state) :
    KwmClearSettings K
      = { K with KWMSettings := ScalarSettings K.KWMSettings, KWMHotkeys := ClearedHotkeys } := by
  simp [KwmClearSettings, GetBindingMode, FindMode, ClearedHotkeys, ScalarSettings]

theorem ClearedHotkeys_invariant : ActiveModeInvariant ClearedHotkeys := by
  unfold ActiveModeInvariant Registered
  decide

theorem KwmParseConfig_invariant (Env : kwm_env) (Path : String) (K : kwm_state)
    (Name : String) (ha : K.KWMHotkeys.ActiveMode = some Name)
    (hr : Registered K.KWMHotkeys Name) (hd : Registered K.KWMHotkeys "default") :
    (KwmParseConfig Env Path K).KWMHotkeys.ActiveMode = some Name ∧
      Registered (KwmParseConfig Env Path K).KWMHotkeys Name ∧
      Registered (KwmParseConfig Env Path K).KWMHotkeys "default" := by
  unfold KwmParseConfig
  cases Env.ConfigSource Path with
  | none => exact ⟨ha, hr, hd⟩
  | some Directives =>
    exact foldl_ApplyDirective_invariant
      (fun R => R.2.ActiveMode = some Name ∧ Registered R.2 Name ∧ Registered R.2 "default")
      Directives
      (fun R D _ hP => ⟨(ApplyDirective_ActiveMode R D).trans hP.1,
        ApplyDirective_keeps R D Name hP.2.1, ApplyDirective_keeps R D "default" hP.2.2⟩)
      (K.KWMSettings, K.KWMHotkeys) ⟨ha, hr, hd⟩

theorem KwmInit_returned (Env : kwm_env) (K K1 : kwm_state)
    (h : KwmInit Env K = .returned K1) :
    CheckPrivileges Env = true ∧ Env.KwmStartDaemon = true ∧ Env.HOME.isSome = true ∧
      K1.KWMHotkeys = { (GetBindingMode "default" K.KWMHotkeys).2 with
                        ActiveMode := some "default" } := by
  unfold KwmInit at h
  cases hp : CheckPrivileges Env with
  | false => simp [hp, Fatal_exited] at h
  | true =>
    cases hs : Env.KwmStartDaemon with
    | false => simp [hp, hs, Fatal_exited] at h
    | true =>
      cases hh : Env.HOME with
      | none => simp [hp, hs, hh, Fatal_exited] at h
      | some HomeP =>
        simp only [hp, hs, hh, Bool.not_true, Bool.false_eq_true, if_false,
          outcome.returned.injEq] at h
        subst h
        refine ⟨rfl, rfl, rfl, ?_⟩
        unfold GetKwmFilePath
        cases Env.proc_pidpath <;> cases Env.DEBUG_BUILD <;>
          simp [Call, Print, GetBindingMode_fst]

theorem KwmInit_returns (Env : kwm_env) (K : kwm_state)
    (hp : CheckPrivileges Env = true) (hd : Env.KwmStartDaemon = true)
    (hh : Env.HOME.isSome = true) : ∃ K1, KwmInit Env K = .returned K1 := by
  obtain ⟨HomeP, hH⟩ := Option.isSome_iff_exists.mp hh
  simp [KwmInit, hp, hd, hH]

/-! ## The event-tap callback -/

/-- C2: with built-in hotkeys enabled and the pair of the key-down event bound to
`Hotkey` in the active mode, the callback constructs exactly one `HotkeyPressed`
event carrying `Hotkey`, returns `NULL` when the passthrough flag of `Hotkey` is
false and returns the event it was given when the flag is true. -/
theorem CGEventCallback_bound (K : kwm_state) (Event : CGEvent) (Active : mode)
    (Hotkey : hotkey)
    (hflag : HasFlags K.KWMSettings Settings_BuiltinHotkeys = true)
    (hactive : ActiveModeDeref K.KWMHotkeys = some Active)
    (hbound : HotkeyExists K.KWMHotkeys Event.Flags Event.Key Active.Name = some Hotkey) :
    (Hotkey ∈ Bindings K.KWMHotkeys Active.Name ∧ Hotkey.Flags = Event.Flags ∧
        Hotkey.Key = Event.Key) ∧
      ∃ R, CGEventCallback K .kCGEventKeyDown Event = some R ∧
        R.K = Call (.AXLibConstructEvent .AXEvent_HotkeyPressed (some Hotkey) false) K ∧
        R.K.Calls = K.Calls ++ [.AXLibConstructEvent .AXEvent_HotkeyPressed (some Hotkey) false] ∧
        (R.Return = none ↔ Hotkey.Passthrough = false) ∧
        (Hotkey.Passthrough = true → R.Return = some Event) := by
  refine ⟨HotkeyExists_some hbound, ?_⟩
  cases hp : Hotkey.Passthrough <;>
    simp [CGEventCallback, hflag, hactive, CreateHotkeyFromCGEvent, hbound, hp, Call]

/-- C3: a key-down event whose pair has no binding in the active mode is returned
untouched and no call is made, whatever the built-in-hotkeys flag is; and this stays so
for every other content of the mode map that registers the same active mode, so
bindings of the pair in other modes never match. -/
theorem CGEventCallback_unbound (K : kwm_state) (Event : CGEvent) (Active : mode)
    (hactive : ActiveModeDeref K.KWMHotkeys = some Active)
    (hunbound : ∀ B ∈ Bindings K.KWMHotkeys Active.Name,
      ¬ (B.Flags = Event.Flags ∧ B.Key = Event.Key)) :
    CGEventCallback K .kCGEventKeyDown Event = some { Return := some Event, K := K } ∧
      ∀ Modes : List mode, FindMode Modes Active.Name = some Active →
        CGEventCallback { K with KWMHotkeys := { K.KWMHotkeys with Modes := Modes } }
            .kCGEventKeyDown Event
          = some { Return := some Event,
                   K := { K with KWMHotkeys := { K.KWMHotkeys with Modes := Modes } } } := by
  have hA := ActiveModeDeref_some hactive
  constructor
  · have hn := HotkeyExists_none.mpr hunbound
    cases hf : HasFlags K.KWMSettings Settings_BuiltinHotkeys <;>
      simp [CGEventCallback, hf, hactive, CreateHotkeyFromCGEvent, hn]
  · intro Modes hM
    have hb : Bindings { K.KWMHotkeys with Modes := Modes } Active.Name
        = Bindings K.KWMHotkeys Active.Name := by
      rw [Bindings_of_FindMode hA.2]
      exact Bindings_of_FindMode (H := { K.KWMHotkeys with Modes := Modes }) hM
    have hn : HotkeyExists { K.KWMHotkeys with Modes := Modes } Event.Flags Event.Key
        Active.Name = none := by
      rw [HotkeyExists_none, hb]
      exact hunbound
    have hd : ActiveModeDeref { K.KWMHotkeys with Modes := Modes } = some Active := by
      simp [ActiveModeDeref, hA.1, hM]
    cases hf : HasFlags K.KWMSettings Settings_BuiltinHotkeys <;>
      simp [CGEventCallback, hf, hd, CreateHotkeyFromCGEvent, hn]

/-- The scenario of C2: `(PRIMARY, LEFT)` is bound to `FocusLeft` with passthrough off
in the active mode `default`, and the callback suppresses the event. -/
theorem CGEventCallback_bound_witness :
    HasFlags ScenarioState.KWMSettings Settings_BuiltinHotkeys = true ∧
      ActiveModeDeref ScenarioState.KWMHotkeys = some DefaultMode ∧
      HotkeyExists ScenarioState.KWMHotkeys ScenarioEvent.Flags ScenarioEvent.Key
        DefaultMode.Name = some FocusLeft ∧
      ∃ R, CGEventCallback ScenarioState .kCGEventKeyDown ScenarioEvent = some R ∧
        R.Return = none ∧
        R.K.Calls = [.AXLibConstructEvent .AXEvent_HotkeyPressed (some FocusLeft) false] :=
  ⟨by decide, by decide, by decide,
    match CGEventCallback_bound ScenarioState ScenarioEvent DefaultMode FocusLeft
      (by decide) (by decide) (by decide) with
    | ⟨_, R, h1, _, h3, h4, _⟩ => ⟨R, h1, h4.mpr rfl, h3⟩⟩

/-- An instance of C3: the pair `(PRIMARY, 124)` is bound in `resize` only, `default` is
active, and the event is returned untouched. -/
theorem CGEventCallback_unbound_witness :
    ActiveModeDeref ScenarioState.KWMHotkeys = some DefaultMode ∧
      HotkeyExists ScenarioState.KWMHotkeys PRIMARY 124 "resize" ≠ none ∧
      CGEventCallback ScenarioState .kCGEventKeyDown { Id := 8, Flags := PRIMARY, Key := 124 }
        = some { Return := some { Id := 8, Flags := PRIMARY, Key := 124 },
                 K := ScenarioState } :=
  ⟨by decide, by decide,
    (CGEventCallback_unbound ScenarioState { Id := 8, Flags := PRIMARY, Key := 124 }
      DefaultMode (by decide) (by decide)).1⟩

/-- C10: when the active mode resolves on the one path that looks a hotkey up, the
callback returns; it returns `NULL` exactly when the event is a key-down, built-in
hotkeys are enabled and the hotkey matched in the active mode has passthrough off;
in every other case it returns the event it was given.  For a key-down while
built-in hotkeys are disabled no lookup is made (the active mode is not
dereferenced), no call is made and the state is unchanged; for an event that is not
a key-down the only calls are the tap re-enable and the `MouseMoved` event. -/
theorem CGEventCallback_suppress_iff (K : kwm_state) (EventType : CGEventType)
    (Event : CGEvent)
    (hactive : EventType = .kCGEventKeyDown →
      HasFlags K.KWMSettings Settings_BuiltinHotkeys = true →
      (ActiveModeDeref K.KWMHotkeys).isSome = true) :
    ∃ R, CGEventCallback K EventType Event = some R ∧
      (R.Return = none ↔
        EventType = .kCGEventKeyDown ∧
          HasFlags K.KWMSettings Settings_BuiltinHotkeys = true ∧
          ∃ Active Hotkey, ActiveModeDeref K.KWMHotkeys = some Active ∧
            HotkeyExists K.KWMHotkeys Event.Flags Event.Key Active.Name = some Hotkey ∧
            Hotkey.Passthrough = false) ∧
      (R.Return ≠ none → R.Return = some Event) ∧
      (EventType = .kCGEventKeyDown →
        HasFlags K.KWMSettings Settings_BuiltinHotkeys = false →
        R = { Return := some Event, K := K }) ∧
      (EventType ≠ .kCGEventKeyDown →
        R.Return = some Event ∧
          (R.K = K ∨ R.K = Call .CGEventTapEnable K ∨
            R.K = Call (.AXLibConstructEvent .AXEvent_MouseMoved none false) K)) := by
  cases EventType with
  | kCGEventTapDisabledByTimeout =>
    cases hd : K.KWMMach.DisableEventTapInternal <;> simp [CGEventCallback, hd]
  | kCGEventTapDisabledByUserInput =>
    cases hd : K.KWMMach.DisableEventTapInternal <;> simp [CGEventCallback, hd]
  | kCGEventMouseMoved =>
    by_cases hf : K.KWMSettings.Focus = .FocusModeAutoraise <;> simp [CGEventCallback, hf]
  | other Code => simp [CGEventCallback]
  | kCGEventKeyDown =>
    cases hf : HasFlags K.KWMSettings Settings_BuiltinHotkeys with
    | false => simp [CGEventCallback, hf]
    | true =>
      have hs := hactive rfl hf
      obtain ⟨Active, hA⟩ := Option.isSome_iff_exists.mp hs
      cases hk : HotkeyExists K.KWMHotkeys Event.Flags Event.Key Active.Name with
      | none => simp [CGEventCallback, hf, hA, CreateHotkeyFromCGEvent, hk]
      | some Hotkey =>
        cases hp : Hotkey.Passthrough <;>
          simp [CGEventCallback, hf, hA, CreateHotkeyFromCGEvent, hk, hp]

/-- Two instances of C10.  In the scenario the key-down event bound with passthrough
off is suppressed.  With built-in hotkeys disabled and a null active mode pointer,
the same event is returned and the state is unchanged. -/
theorem CGEventCallback_suppress_iff_witness :
    (∃ R, CGEventCallback ScenarioState .kCGEventKeyDown ScenarioEvent = some R ∧
        R.Return = none) ∧
      HasFlags DisabledState.KWMSettings Settings_BuiltinHotkeys = false ∧
      DisabledState.KWMHotkeys.ActiveMode = none ∧
      CGEventCallback DisabledState .kCGEventKeyDown ScenarioEvent
        = some { Return := some ScenarioEvent, K := DisabledState } :=
  ⟨match CGEventCallback_suppress_iff ScenarioState .kCGEventKeyDown ScenarioEvent
      (fun _ _ => by decide) with
    | ⟨R, h1, h2, _⟩ =>
      ⟨R, h1, h2.mpr ⟨rfl, by decide, DefaultMode, FocusLeft, by decide, by decide, rfl⟩⟩,
    by decide, rfl,
    match CGEventCallback_suppress_iff DisabledState .kCGEventKeyDown ScenarioEvent
      (by decide) with
    | ⟨_, h1, _, _, h4, _⟩ => h1.trans (congrArg some (h4 rfl (by decide)))⟩

/-! ## Configuration reload -/

/-- C4: after `KwmInit` returns, after `KwmClearSettings` and after `KwmReloadConfig`
the active mode pointer resolves to a registered mode and a mode `default` is
registered.  `KwmInit` returns whenever the privilege check and the daemon start
succeed and `HOME` is set, and it makes `default` the active mode; `KwmClearSettings`
leaves exactly one registered mode, a new `default` without bindings, and the
active mode pointer designates that entry. -/
theorem active_mode_invariant (Env : kwm_env) (K : kwm_state) :
    (∀ K1, KwmInit Env K = .returned K1 →
        ActiveModeInvariant K1.KWMHotkeys ∧ K1.KWMHotkeys.ActiveMode = some "default") ∧
      (CheckPrivileges Env = true → Env.KwmStartDaemon = true → Env.HOME.isSome = true →
        ∃ K1, KwmInit Env K = .returned K1) ∧
      (ActiveModeInvariant (KwmClearSettings K).KWMHotkeys ∧
        (KwmClearSettings K).KWMHotkeys.Modes = [CreateBindingMode "default"] ∧
        (KwmClearSettings K).KWMHotkeys.ActiveMode = some "default" ∧
        ActiveModeDeref (KwmClearSettings K).KWMHotkeys = some (CreateBindingMode "default")) ∧
      (ActiveModeInvariant (KwmReloadConfig Env K).KWMHotkeys ∧
        (KwmReloadConfig Env K).KWMHotkeys.ActiveMode = some "default") := by
  refine ⟨?_, ?_, ?_, ?_⟩
  · intro K1 h
    have hK := (KwmInit_returned Env K K1 h).2.2.2
    have hreg : Registered K1.KWMHotkeys "default" := by
      rw [hK]
      exact GetBindingMode_registered "default" K.KWMHotkeys
    have hact : K1.KWMHotkeys.ActiveMode = some "default" := by rw [hK]
    exact ⟨ActiveModeInvariant_of _ "default" hact hreg hreg, hact⟩
  · intro hp hs hh
    obtain ⟨HomeP, hH⟩ := Option.isSome_iff_exists.mp hh
    simp [KwmInit, hp, hs, hH]
  · rw [KwmClearSettings_KWMHotkeys]
    exact ⟨ClearedHotkeys_invariant, rfl, rfl, by decide⟩
  · have hc := KwmClearSettings_KWMHotkeys K
    have hreg : Registered (KwmClearSettings K).KWMHotkeys "default" := by
      rw [hc]
      exact ClearedHotkeys_invariant.2
    have hact : (KwmClearSettings K).KWMHotkeys.ActiveMode = some "default" := by rw [hc]; rfl
    have h := KwmParseConfig_invariant Env (KwmClearSettings K).KWMPath.Config
      (KwmClearSettings K) "default" hact hreg hreg
    exact ⟨ActiveModeInvariant_of _ "default" h.1 h.2.1 h.2.2, h.1⟩

/-- An instance of C4: started with an empty mode map and a null active mode
pointer, `KwmInit` returns with the invariant established. -/
theorem active_mode_invariant_witness :
    ∃ K1, KwmInit SampleEnv
        { ScenarioState with KWMHotkeys := { Modes := [], ActiveMode := none } }
        = .returned K1 ∧
      ActiveModeInvariant K1.KWMHotkeys ∧ K1.KWMHotkeys.ActiveMode = some "default" :=
  match (active_mode_invariant SampleEnv
      { ScenarioState with KWMHotkeys := { Modes := [], ActiveMode := none } }).2.1
      rfl rfl rfl with
  | ⟨K1, h⟩ =>
    ⟨K1, h, (active_mode_invariant SampleEnv
      { ScenarioState with KWMHotkeys := { Modes := [], ActiveMode := none } }).1 K1 h⟩

/-- Counterexample to C1: the configuration source fails to parse, and after
`KwmReloadConfig` the window rule, the overrides and the mode `resize` of the
pre-reload state are gone. -/
theorem KwmReloadConfig_not_all_or_nothing :
    FailingEnv.ConfigSource ScenarioState.KWMPath.Config = none ∧
      KwmReloadConfig FailingEnv ScenarioState ≠ ScenarioState ∧
      ScenarioState.KWMSettings.WindowRules = [{ AppPredicate := "iTerm2", Placement := "float" }] ∧
      (KwmReloadConfig FailingEnv ScenarioState).KWMSettings.WindowRules = [] ∧
      ScenarioState.KWMHotkeys.Modes = [DefaultMode, ResizeMode] ∧
      (KwmReloadConfig FailingEnv ScenarioState).KWMHotkeys.Modes
        = [{ Name := "default", Hotkeys := [] }] := by
  refine ⟨rfl, ?_, rfl, rfl, rfl, rfl⟩
  intro h
  have h1 := congrArg (fun K => K.KWMSettings.WindowRules) h
  exact absurd h1 (by decide)

/-- C1 as amended: when the configuration source fails to parse, the state after
`KwmReloadConfig` is the state `KwmClearSettings` leaves: the window rules and the
per-space and per-display settings are empty, the one registered mode is a
`default` without bindings, which is active, and every other field has its
pre-reload value. -/
theorem KwmReloadConfig_parse_failure (Env : kwm_env) (K : kwm_state)
    (hfail : Env.ConfigSource K.KWMPath.Config = none) :
    KwmReloadConfig Env K = KwmClearSettings K ∧
      KwmReloadConfig Env K
        = { K with
            KWMSettings := { K.KWMSettings with
              WindowRules := [], SpaceSettings := [], DisplaySettings := [] },
            KWMHotkeys := { Modes := [{ Name := "default", Hotkeys := [] }],
                            ActiveMode := some "default" } } := by
  have h1 : KwmReloadConfig Env K = KwmClearSettings K := by
    have hp : (KwmClearSettings K).KWMPath = K.KWMPath := rfl
    simp [KwmReloadConfig, KwmParseConfig, hp, hfail]
  refine ⟨h1, ?_⟩
  rw [h1, KwmClearSettings_eq]
  rfl

/-- An instance of C1 as amended, at the scenario state. -/
theorem KwmReloadConfig_parse_failure_witness :
    FailingEnv.ConfigSource ScenarioState.KWMPath.Config = none ∧
      KwmReloadConfig FailingEnv ScenarioState = KwmClearSettings ScenarioState :=
  ⟨rfl, (KwmReloadConfig_parse_failure FailingEnv ScenarioState rfl).1⟩

theorem ParseArguments_no_version (Results : List getopt_result) (K : kwm_state)
    (hnov : ∀ R ∈ Results, R.Opt ≠ 'v') :
    ParseArguments Results K
      = (false, { K with KWMPath := { K.KWMPath with
          Config := ((ConfigOptions Results).getLast?).getD K.KWMPath.Config } }) := by
  induction Results generalizing K with
  | nil => rfl
  | cons R Rest ih =>
    have hR : R.Opt ≠ 'v' := hnov R (List.mem_cons_self _ _)
    have hRest : ∀ R1 ∈ Rest, R1.Opt ≠ 'v' := fun R1 h => hnov R1 (List.mem_cons_of_mem _ h)
    by_cases hc : R.Opt = 'c'
    · have hco : ConfigOptions (R :: Rest) = R.optarg :: ConfigOptions Rest := by
        simp [ConfigOptions, hc]
      rw [ParseArguments, if_neg hR, if_pos hc, ih _ hRest, hco, List.getLast?_cons]
      rfl
    · have hco : ConfigOptions (R :: Rest) = ConfigOptions Rest := by
        simp [ConfigOptions, hc]
      rw [ParseArguments, if_neg hR, if_neg hc, ih _ hRest, hco]

theorem KwmInit_unprivileged (Env : kwm_env) (K : kwm_state)
    (h : CheckPrivileges Env = false) :
    KwmInit Env K = .exited 1 (Print "Error: Could not access OSX Accessibility!" K) := by
  simp [KwmInit, h, Fatal_exited]

theorem KwmInit_Config (Env : kwm_env) (K K1 : kwm_state) (h : KwmInit Env K = .returned K1) :
    ∃ HomeP, Env.HOME = some HomeP ∧
      K1.KWMPath.Config
        = if K.KWMPath.Config = "" then HomeP ++ "/.kwm/kwmrc" else K.KWMPath.Config := by
  unfold KwmInit at h
  cases hp : CheckPrivileges Env with
  | false => simp [hp, Fatal_exited] at h
  | true =>
    cases hs : Env.KwmStartDaemon with
    | false => simp [hp, hs, Fatal_exited] at h
    | true =>
      cases hh : Env.HOME with
      | none => simp [hp, hs, hh, Fatal_exited] at h
      | some HomeP =>
        simp only [hp, hs, hh, Bool.not_true, Bool.false_eq_true, if_false,
          outcome.returned.injEq] at h
        subst h
        refine ⟨HomeP, rfl, ?_⟩
        have happ : HomeP ++ "/.kwm" ++ "/kwmrc" = HomeP ++ "/.kwm/kwmrc" := by
          rw [String.append_assoc]
          rfl
        unfold GetKwmFilePath
        by_cases hc : K.KWMPath.Config = "" <;>
          cases Env.proc_pidpath <;> cases Env.DEBUG_BUILD <;>
            simp [Call, Print, hc, happ]

theorem FatalExit_Fatal {K K0 : kwm_state} {Err : String} (hE : Err ∈ Diagnostics)
    (hC : call.CFRunLoopRun ∈ K0.Calls → call.CFRunLoopRun ∈ K.Calls) :
    FatalExit K (Fatal Err K0) :=
  ⟨Print Err K0, Err, rfl, hE, by simp [Print], hC⟩

theorem KwmParseConfig_Calls (Env : kwm_env) (Path : String) (K : kwm_state) :
    (KwmParseConfig Env Path K).Calls = K.Calls := by
  unfold KwmParseConfig
  cases Env.ConfigSource Path <;> rfl

theorem KwmExecuteInitScript_Calls (Env : kwm_env) (K : kwm_state)
    (h : call.CFRunLoopRun ∈ (KwmExecuteInitScript Env K).Calls) :
    call.CFRunLoopRun ∈ K.Calls := by
  unfold KwmExecuteInitScript at h
  by_cases hI : K.KWMPath.Init = "" <;>
    cases hS : Env.stat (K.KWMPath.Home ++ "/init") <;>
      cases hS1 : Env.stat K.KWMPath.Init <;>
        simpa [hI, hS, hS1, Call] using h

theorem KwmInit_cases (Env : kwm_env) (K : kwm_state) :
    (∃ Err K0, Err ∈ Diagnostics ∧ KwmInit Env K = Fatal Err K0 ∧
        (call.CFRunLoopRun ∈ K0.Calls → call.CFRunLoopRun ∈ K.Calls)) ∨
      (∃ K1, KwmInit Env K = .returned K1 ∧ CheckPrivileges Env = true ∧
        Env.KwmStartDaemon = true ∧
        (call.CFRunLoopRun ∈ K1.Calls → call.CFRunLoopRun ∈ K.Calls)) := by
  unfold KwmInit
  cases hp : CheckPrivileges Env with
  | false =>
    exact Or.inl ⟨"Error: Could not access OSX Accessibility!", K, by simp [Diagnostics],
      by simp, id⟩
  | true =>
    cases hs : Env.KwmStartDaemon with
    | false =>
      exact Or.inl ⟨"Error: Could not start daemon!", Call .KwmStartDaemon K,
        by simp [Diagnostics], by simp, by simp [Call]⟩
    | true =>
      cases hh : Env.HOME with
      | none =>
        refine Or.inl ⟨"Error: Failed to get environment variable 'HOME'", _,
          by simp [Diagnostics], by simp; rfl, ?_⟩
        cases Env.DEBUG_BUILD <;> simp [Call, Print]
      | some HomeP =>
        refine Or.inr ⟨_, by simp; rfl, rfl, rfl, ?_⟩
        unfold GetKwmFilePath
        cases Env.proc_pidpath <;> cases Env.DEBUG_BUILD <;> simp [Call, Print]

theorem mainTapCreate_EventTap (Env : kwm_env) (K9 : kwm_state) :
    (mainTapCreate Env K9).KWMMach.EventTap = Env.CGEventTapCreate := rfl

theorem mainTapCreate_Calls (Env : kwm_env) (K9 : kwm_state) :
    (mainTapCreate Env K9).Calls = K9.Calls ++ [call.CGEventTapCreate] := by
  unfold mainTapCreate
  cases Env.CGSIsSecureEventInputSet <;> rfl

theorem mainRunLoop_fatal (Env : kwm_env) (K12 : kwm_state)
    (htap : K12.KWMMach.EventTap = false ∨ Env.CGEventTapIsEnabled = false) :
    mainRunLoop Env K12 = Fatal "Error: Could not create event-tap!" K12 := by
  have hcond : (!K12.KWMMach.EventTap || !Env.CGEventTapIsEnabled) = true := by
    rcases htap with h | h <;> simp [h]
  unfold mainRunLoop
  rw [if_pos hcond]

/-- C6: in a run without a version option, if the accessibility check fails, or the
daemon cannot be started, or the event tap cannot be created or is not enabled,
`main` prints a diagnostic and exits with status `1` without entering the run loop.
When `CheckPrivileges` fails `KwmInit` exits with status `1` in the state it was
called in, with only the diagnostic printed: no daemon is started, no thread is
created and no setting is written. -/
theorem main_fatal (Env : kwm_env) (K : kwm_state)
    (hnov : ∀ R ∈ Env.getopt_long, R.Opt ≠ 'v')
    (hfail : CheckPrivileges Env = false ∨ Env.KwmStartDaemon = false ∨
      Env.CGEventTapCreate = false ∨ Env.CGEventTapIsEnabled = false) :
    (∃ K1 Err, main Env K = .exited 1 K1 ∧ Err ∈ Diagnostics ∧
        K1.Stdout.getLast? = some Err ∧
        (call.CFRunLoopRun ∈ K1.Calls → call.CFRunLoopRun ∈ K.Calls)) ∧
      (∀ K0, CheckPrivileges Env = false →
        KwmInit Env K0
          = .exited 1 { K0 with Stdout :=
              K0.Stdout ++ ["Error: Could not access OSX Accessibility!"] }) := by
  refine ⟨?_, fun K0 h => KwmInit_unprivileged Env K0 h⟩
  change FatalExit K (main Env K)
  have hP := ParseArguments_no_version Env.getopt_long K hnov
  have hC2 : call.CFRunLoopRun ∈ (Call call.NSApplicationLoad
      (ParseArguments Env.getopt_long K).2).Calls → call.CFRunLoopRun ∈ K.Calls := by
    rw [hP]
    simp [Call]
  cases hsep : Env.AXLibDisplayHasSeparateSpaces with
  | false =>
    have hm : main Env K = Fatal "Error: 'Displays have separate spaces' must be enabled!"
        (Call call.NSApplicationLoad (ParseArguments Env.getopt_long K).2) := by
      simp [main, hP, hsep]
    rw [hm]
    exact FatalExit_Fatal (by simp [Diagnostics]) hC2
  | true =>
    have hC5 : call.CFRunLoopRun ∈ (mainDisplays Env (Call call.NSApplicationLoad
        (ParseArguments Env.getopt_long K).2)).Calls → call.CFRunLoopRun ∈ K.Calls := by
      intro h
      apply hC2
      simpa [mainDisplays, Call] using h
    rcases KwmInit_cases Env (mainDisplays Env (Call call.NSApplicationLoad
        (ParseArguments Env.getopt_long K).2)) with
      ⟨Err, K0, hE, hK, hC⟩ | ⟨K1, hK, hp, hd, hC⟩
    · have hm : main Env K = Fatal Err K0 := by
        simp only [hP] at hK
        simp [main, hP, hsep, hK, Fatal_exited]
      rw [hm]
      exact FatalExit_Fatal hE (fun h => hC5 (hC h))
    · have htap : Env.CGEventTapCreate = false ∨ Env.CGEventTapIsEnabled = false := by
        rcases hfail with h | h | h | h
        · rw [hp] at h; exact absurd h (by decide)
        · rw [hd] at h; exact absurd h (by decide)
        · exact Or.inl h
        · exact Or.inr h
      have hT := mainRunLoop_fatal Env
        (mainTapCreate Env (Call .CreateWindowNodeTree
          (KwmExecuteInitScript Env (KwmParseConfig Env K1.KWMPath.Config K1))))
        (by rw [mainTapCreate_EventTap]; exact htap)
      have hm : main Env K = Fatal "Error: Could not create event-tap!"
          (mainTapCreate Env (Call .CreateWindowNodeTree
            (KwmExecuteInitScript Env (KwmParseConfig Env K1.KWMPath.Config K1)))) := by
        simp only [hP] at hK
        simp [main, hP, hsep, hK, hT]
      rw [hm]
      apply FatalExit_Fatal (by simp [Diagnostics])
      intro h
      apply hC5
      apply hC
      rw [mainTapCreate_Calls] at h
      have h1 : call.CFRunLoopRun ∈
          (KwmExecuteInitScript Env (KwmParseConfig Env K1.KWMPath.Config K1)).Calls := by
        simpa [Call] using h
      have h2 := KwmExecuteInitScript_Calls Env _ h1
      rwa [KwmParseConfig_Calls] at h2

/-- An instance of C6: the accessibility check fails; `main` exits with status `1`, the
diagnostic is the only line printed and the only call made before is into the
collaborators `main` sets up before `KwmInit`. -/
theorem main_fatal_witness :
    (∀ R ∈ UntrustedEnv.getopt_long, R.Opt ≠ 'v') ∧ CheckPrivileges UntrustedEnv = false ∧
      (∃ K1 Err, main UntrustedEnv StartState = .exited 1 K1 ∧ Err ∈ Diagnostics ∧
        K1.Stdout.getLast? = some Err ∧
        (call.CFRunLoopRun ∈ K1.Calls → call.CFRunLoopRun ∈ StartState.Calls)) ∧
      main UntrustedEnv StartState
        = .exited 1 { StartState with
            Displays := [{ ID := 0, Space := 2, PrevSpace := 1 }],
            Stdout := ["Error: Could not access OSX Accessibility!"],
            Calls := [.NSApplicationLoad, .AXLibInit, .AXLibStartEventLoop,
                      .AXLibGetFocusedApplication] } :=
  ⟨by decide, rfl,
    (main_fatal UntrustedEnv StartState (by decide) (Or.inl rfl)).1, rfl⟩

/-- Counterexample to C9: in the run `kwm -c ""` the last `-c` option has the empty
string as argument, and the configuration path in effect after `ParseArguments`
and `KwmInit` is the default path, not that argument. -/
theorem StartupConfig_empty_argument :
    (∀ R ∈ EmptyConfigEnv.getopt_long, R.Opt ≠ 'v') ∧
      (ConfigOptions EmptyConfigEnv.getopt_long).getLast? = some "" ∧
      EmptyConfigEnv.HOME = some "/Users/u" ∧
      StartupConfig EmptyConfigEnv StartState = some "/Users/u/.kwm/kwmrc" ∧
      StartupConfig EmptyConfigEnv StartState ≠ some "" := by
  refine ⟨by decide, by decide, rfl, by decide, by decide⟩

/-- C9 as amended: in a run without a version option that starts with an empty
configuration path, with `HOME` set and `KwmInit` getting past its two checks, the
configuration path in effect after `ParseArguments` and `KwmInit` is the argument
of the last `-c`/`--config` option when one is given and its argument is not
empty, and is `HOME` followed by `/.kwm/kwmrc` otherwise; `KwmInit` never overwrites
a non-empty configuration path. -/
theorem StartupConfig_eq (Env : kwm_env) (K : kwm_state) (Home : String)
    (hstart : K.KWMPath.Config = "")
    (hnov : ∀ R ∈ Env.getopt_long, R.Opt ≠ 'v')
    (hp : CheckPrivileges Env = true) (hd : Env.KwmStartDaemon = true)
    (hhome : Env.HOME = some Home) :
    StartupConfig Env K
        = some (match (ConfigOptions Env.getopt_long).getLast? with
                | some Arg => if Arg = "" then Home ++ "/.kwm/kwmrc" else Arg
                | none => Home ++ "/.kwm/kwmrc") ∧
      (∀ Ka Kb, Ka.KWMPath.Config ≠ "" → KwmInit Env Ka = .returned Kb →
        Kb.KWMPath.Config = Ka.KWMPath.Config) := by
  constructor
  · unfold StartupConfig
    rw [ParseArguments_no_version _ _ hnov]
    dsimp only
    obtain ⟨K2, hK2⟩ := (KwmInit_returns Env _ hp hd (by rw [hhome]; rfl))
    rw [hK2]
    dsimp only
    obtain ⟨HomeP, hH, hC⟩ := KwmInit_Config Env _ K2 hK2
    rw [hhome] at hH
    cases hH
    rw [hC]
    cases hl : (ConfigOptions Env.getopt_long).getLast? with
    | none => simp [hstart]
    | some Arg => simp
  · intro Ka Kb hne hK
    obtain ⟨HomeP, _, hC⟩ := KwmInit_Config Env Ka Kb hK
    rw [hC, if_neg hne]

/-- An instance of C9 as amended: in the run `kwm -c a -x --config b` the path in
effect is `b`. -/
theorem StartupConfig_eq_witness :
    StartState.KWMPath.Config = "" ∧ (∀ R ∈ TwoConfigEnv.getopt_long, R.Opt ≠ 'v') ∧
      ConfigOptions TwoConfigEnv.getopt_long = ["a", "b"] ∧
      StartupConfig TwoConfigEnv StartState = some "b" :=
  ⟨rfl, by decide, by decide,
    (StartupConfig_eq TwoConfigEnv StartState "/Users/u" rfl (by decide) rfl rfl rfl).1⟩

/-! ## A reload interleaved with the callback -/

theorem CGEventCallback_cleared (K : kwm_state) (Event : CGEvent) :
    CGEventCallback (KwmClearSettings K) .kCGEventKeyDown Event
      = some { Return := some Event, K := KwmClearSettings K } := by
  have hd : ActiveModeDeref (KwmClearSettings K).KWMHotkeys
      = some (CreateBindingMode "default") := by
    rw [KwmClearSettings_KWMHotkeys]
    decide
  have hn : ∀ Flags Key, HotkeyExists (KwmClearSettings K).KWMHotkeys Flags Key
      (CreateBindingMode "default").Name = none := by
    intro Flags Key
    rw [KwmClearSettings_KWMHotkeys]
    rfl
  cases hf : HasFlags (KwmClearSettings K).KWMSettings Settings_BuiltinHotkeys <;>
    simp [CGEventCallback, hf, hd, hn]

/-- Counterexample to C7: the pre-reload state binds `(PRIMARY, LEFT)` in the active
mode and so does the configuration; the callback suppresses the key-down event in
the complete pre-reload state and in the complete post-reload state, but run
between the two statements of `KwmReloadConfig` it returns the event: it has
observed the cleared registries. -/
theorem KwmReloadConfig_not_atomic :
    (CGEventCallback ScenarioState .kCGEventKeyDown ScenarioEvent).map (fun R => R.Return)
        = some none ∧
      (CGEventCallback (KwmReloadConfig RebindEnv ScenarioState) .kCGEventKeyDown
          ScenarioEvent).map (fun R => R.Return) = some none ∧
      (Interleave RebindEnv .kCGEventKeyDown ScenarioEvent [.worker, .primary, .worker]
          { Pc := 0, K := ScenarioState, Observed := [] }).Observed.map
            (Option.map (fun R => R.Return))
        = [some (some ScenarioEvent)] ∧
      (Interleave RebindEnv .kCGEventKeyDown ScenarioEvent [.worker, .primary, .worker]
          { Pc := 0, K := ScenarioState, Observed := [] }).K.KWMHotkeys
        = (KwmReloadConfig RebindEnv ScenarioState).KWMHotkeys := by
  refine ⟨by decide, by decide, by decide, by decide⟩

/-- C7 as amended: `KwmReloadConfig` is not atomic with respect to `CGEventCallback`: it
is the two steps `KwmClearSettings` and `KwmParseConfig`, neither of which makes a
call, so no lock is acquired.  A callback scheduled before the reload runs on the
complete pre-reload state and one scheduled after it on the complete post-reload
state; a callback scheduled between the two steps runs on the cleared state, so
every key-down event is then returned untouched and no `HotkeyPressed` event is
constructed, and the reload ends in the same state as without the callback. -/
theorem KwmReloadConfig_interleaved (Env : kwm_env) (K : kwm_state)
    (EventType : CGEventType) (Event : CGEvent) :
    Interleave Env EventType Event [.worker, .worker] { Pc := 0, K := K, Observed := [] }
        = { Pc := 2, K := KwmReloadConfig Env K, Observed := [] } ∧
      (KwmClearSettings K).Calls = K.Calls ∧
      (KwmReloadConfig Env K).Calls = K.Calls ∧
      (Interleave Env EventType Event [.primary, .worker, .worker]
          { Pc := 0, K := K, Observed := [] }).Observed
        = [CGEventCallback K EventType Event] ∧
      (Interleave Env EventType Event [.worker, .worker, .primary]
          { Pc := 0, K := K, Observed := [] }).Observed
        = [CGEventCallback (KwmReloadConfig Env K) EventType Event] ∧
      (Interleave Env EventType Event [.worker, .primary, .worker]
          { Pc := 0, K := K, Observed := [] }).Observed
        = [CGEventCallback (KwmClearSettings K) EventType Event] ∧
      Interleave Env .kCGEventKeyDown Event [.worker, .primary, .worker]
          { Pc := 0, K := K, Observed := [] }
        = { Pc := 2, K := KwmReloadConfig Env K,
            Observed := [some { Return := some Event, K := KwmClearSettings K }] } := by
  refine ⟨rfl, rfl, ?_, ?_, ?_, ?_, ?_⟩
  · exact KwmParseConfig_Calls Env _ _
  · simp only [Interleave, CallbackStep]
    cases CGEventCallback K EventType Event <;> rfl
  · simp only [Interleave, ReloadStep, CallbackStep]
    change (match CGEventCallback (KwmReloadConfig Env K) EventType Event with
      | none => _ | some R => _ : reload_run).Observed = _
    cases CGEventCallback (KwmReloadConfig Env K) EventType Event <;> rfl
  · simp only [Interleave, ReloadStep, CallbackStep]
    cases CGEventCallback (KwmClearSettings K) EventType Event <;> rfl
  · simp only [Interleave, ReloadStep, CallbackStep, CGEventCallback_cleared]
    rfl

end Kwm
